import Mathlib

/-!
Verification of the nourish-path-sg grocery companion core logic:
nutrition scoring (NutritionDisplay), nearby-supermarket ranking
(supabase function nearby-supermarkets and LocationTracker price ranking),
the proximity state machine and the location acquisition fallback policy
(GroceryApp).

Numbers that the source manipulates exactly (scores, thresholds, rounded
distances) are modelled as rationals and integers; the Haversine distance,
which lives in transcendental arithmetic, is modelled over the reals and
the ranking pipeline abstracts its numeric value as a parameter.
-/

namespace NourishPath

/-! ### Nutrition scoring (src NutritionDisplay, getNutritionScore / getHealthInsights) -/

/-- A scanned product nutrition record, per 100g.  Fields as consumed by
getNutritionScore and getHealthInsights in the NutritionDisplay component. -/
structure NutritionFacts where
  calories : ℚ
  fat : ℚ
  saturatedFat : ℚ
  carbs : ℚ
  sugar : ℚ
  protein : ℚ
  sodium : ℚ
  fiber : ℚ
deriving DecidableEq

/-- Result record of getNutritionScore. -/
structure NutritionScore where
  score : ℤ
  grade : String
  color : String
deriving DecidableEq

/-- Embedding of getNutritionScore.  A null argument is modelled as none.
Mirrors the source line by line: start at 100, sequential deductions and
bonuses, clamp with Math.max and Math.min, then the grade ladder. -/
def getNutritionScore (nutrition : Option NutritionFacts) : NutritionScore :=
  match nutrition with
  | none => ⟨0, "N/A", "gray"⟩
  | some n =>
    let score : ℤ := 100
    let score := if n.calories > 400 then score - 20 else score
    let score := if n.sugar > 20 then score - 15 else score
    let score := if n.sodium > 1.5 then score - 15 else score
    let score := if n.saturatedFat > 10 then score - 10 else score
    let score := if n.protein > 10 then score + 5 else score
    let score := if n.fiber > 5 then score + 5 else score
    let score := max 0 (min 100 score)
    let gradeColor : String × String :=
      if score ≥ 85 then ("A", "text-fresh-green")
      else if score ≥ 70 then ("B", "text-citrus-yellow")
      else if score ≥ 55 then ("C", "text-citrus-orange")
      else ("D", "text-berry-red")
    ⟨score, gradeColor.1, gradeColor.2⟩

/-- Result record of getHealthInsights. -/
structure HealthInsights where
  positive : List String
  warnings : List String
deriving DecidableEq

/-- Embedding of getHealthInsights: fixed evaluation order of the pushes. -/
def getHealthInsights (nutrition : Option NutritionFacts) : HealthInsights :=
  match nutrition with
  | none => ⟨[], []⟩
  | some n =>
    let positive : List String :=
      (if n.protein > 10 then ["High in protein"] else []) ++
      (if n.fiber > 5 then ["Good source of fiber"] else []) ++
      (if n.calories < 200 then ["Low calorie option"] else []) ++
      (if n.sodium < 0.5 then ["Low sodium"] else []) ++
      (if n.sugar < 5 then ["Low sugar"] else [])
    let warnings : List String :=
      (if n.calories > 400 then ["High in calories"] else []) ++
      (if n.sugar > 20 then ["High in sugar"] else []) ++
      (if n.sodium > 1.5 then ["High in sodium"] else []) ++
      (if n.saturatedFat > 10 then ["High in saturated fat"] else [])
    ⟨positive, warnings⟩

/-- The spec description of the numeric nutrition score, written from the
spec words only (start at 100, independent deductions and bonuses, clamp),
to be compared against the code embedding getNutritionScore. -/
def specScoreValue (n : NutritionFacts) : ℤ :=
  max 0 (min 100
    (100 - (if n.calories > 400 then 20 else 0)
         - (if n.sugar > 20 then 15 else 0)
         - (if n.sodium > 1.5 then 15 else 0)
         - (if n.saturatedFat > 10 then 10 else 0)
         + (if n.protein > 10 then 5 else 0)
         + (if n.fiber > 5 then 5 else 0)))

/-- The spec grade ladder: score at least 85 is A, at least 70 is B,
at least 55 is C, below that D. -/
def specGrade (s : ℤ) : String :=
  if s ≥ 85 then "A" else if s ≥ 70 then "B" else if s ≥ 55 then "C" else "D"

/-- The fixture pinned by the spec test section: calories 456, sugar 29.7,
sodium 0.34, saturatedFat 8.1, protein 7.2, fiber 2.1 (fat and carbs are
not read by the scorer). -/
def fixtureFacts : NutritionFacts :=
  { calories := 456, fat := 0, saturatedFat := 8.1, carbs := 0,
    sugar := 29.7, protein := 7.2, sodium := 0.34, fiber := 2.1 }

/-! ### Nearby supermarket ranking (supabase function nearby-supermarkets) -/

/-- A supermarket catalog row as read by the ranking code; only identity
and the storeType tag matter to filtering and price ranking, the
coordinates enter solely through the computed distance value, which the
pipeline below takes as a parameter. -/
structure Supermarket where
  id : ℕ
  name : String
  type : String
deriving DecidableEq

/-- A supermarket together with its distance field, as returned by the
nearby-supermarkets function body. -/
structure RankedSupermarket where
  store : Supermarket
  distance : ℚ
deriving DecidableEq

/-- Math.round(distance * 10) / 10, the rounding to one decimal place
applied in the function body before filtering.  JavaScript Math.round
rounds half toward positive infinity, which is exactly Mathlib round. -/
def roundTo1dp (x : ℚ) : ℚ := (round (x * 10) : ℤ) / 10

/-- Embedding of the nearby-supermarkets function body: map each catalog
row to a record carrying its distance rounded to one decimal place, filter
by comparing that rounded distance against the radius, and sort ascending
by the same rounded distance.  The sort is a stable sort, matching the
ECMAScript Array.prototype.sort guarantee.  The Haversine value computed
from the coordinates is abstracted as the dist parameter. -/
def nearbySupermarkets (supermarkets : List Supermarket)
    (dist : Supermarket → ℚ) (radius : ℚ) : List RankedSupermarket :=
  ((supermarkets.map fun s => RankedSupermarket.mk s (roundTo1dp (dist s))).filter
      fun r => decide (r.distance ≤ radius)).mergeSort
    fun a b => decide (a.distance ≤ b.distance)

/-- Embedding of getStorePriceRanking in LocationTracker: the switch over
the store type tag, with default tier 3. -/
def getStorePriceRanking (type : String) : ℤ :=
  if type = "Sheng Siong" then 1
  else if type = "Giant" then 2
  else if type = "FairPrice" then 3
  else if type = "Cold Storage" then 4
  else if type = "FairPrice Finest" then 5
  else 3

/-- Embedding of the cheapest-nearby sort in fetchNearbySupermarkets:
a stable sort whose comparator is the price ranking difference, i.e. the
order by getStorePriceRanking of the store type, with no other key. -/
def sortByPriceRanking (stores : List RankedSupermarket) : List RankedSupermarket :=
  stores.mergeSort fun a b =>
    decide (getStorePriceRanking a.store.type ≤ getStorePriceRanking b.store.type)

/-! ### Proximity state machine (GroceryApp, checkNearSupermarket) -/

/-- Outcome of one invocation of the nearby-supermarkets collaborator as
seen by checkNearSupermarket: the invoke call can report an error, the
await can throw, or a response arrives with its success flag and the
distance fields of the returned stores. -/
inductive LookupOutcome where
  | failure
  | exception
  | response (success : Bool) (distances : List ℚ)
deriving DecidableEq

/-- Embedding of checkNearSupermarket as a transition function on the
nearSupermarket boolean.  Returns the new state and whether the
entered-near-supermarket toast fired.  An error reply returns early and
an exception is swallowed by the catch block: both leave the state alone
and fire nothing. -/
def checkNearSupermarket (nearSupermarket : Bool) (outcome : LookupOutcome) :
    Bool × Bool :=
  match outcome with
  | .failure => (nearSupermarket, false)
  | .exception => (nearSupermarket, false)
  | .response success distances =>
    if success && !distances.isEmpty then
      let veryClose := distances.any fun d => decide (d ≤ 0.5)
      if veryClose && !nearSupermarket then (true, true)
      else if !veryClose && nearSupermarket then (false, false)
      else (nearSupermarket, false)
    else if nearSupermarket then (false, false)
    else (nearSupermarket, false)

/-- Run checkNearSupermarket over a sequence of fixes, collecting the
notification flag of each step and the final state. -/
def runProximity (nearSupermarket : Bool) :
    List LookupOutcome → Bool × List Bool
  | [] => (nearSupermarket, [])
  | o :: os =>
    let step := checkNearSupermarket nearSupermarket o
    let rest := runProximity step.1 os
    (rest.1, step.2 :: rest.2)

/-- A fix is far when the lookup succeeds and no returned store is within
the very-close radius 0.5 km (the returned list may be empty). -/
def isFarFix : LookupOutcome → Bool
  | .response true distances => !(distances.any fun d => decide (d ≤ 0.5))
  | _ => false

/-- A fix is close when the lookup succeeds and at least one returned
store is within the very-close radius 0.5 km. -/
def isCloseFix : LookupOutcome → Bool
  | .response true distances => distances.any fun d => decide (d ≤ 0.5)
  | _ => false

/-! ### Location acquisition (GroceryApp, ensureLocationAccess and friends) -/

/-- The options record passed to getCurrentPosition. -/
structure PositionOptions where
  enableHighAccuracy : Bool
  timeout : ℕ
  maximumAge : ℕ
deriving DecidableEq

/-- The geolocation error codes the handler switches on. -/
inductive GeoErrorCode where
  | permissionDenied
  | positionUnavailable
  | timeout
deriving DecidableEq

/-- A position fix; the pipeline only passes it through. -/
structure GeoPosition where
  latitude : ℚ
  longitude : ℚ
deriving DecidableEq

/-- Reply of one getCurrentPosition attempt. -/
inductive GeoResult where
  | ok (pos : GeoPosition)
  | err (code : GeoErrorCode)
deriving DecidableEq

/-- Options of the first, high accuracy attempt in ensureLocationAccess. -/
def highAccuracyOptions : PositionOptions :=
  { enableHighAccuracy := true, timeout := 8000, maximumAge := 60000 }

/-- Options of the low accuracy fallback in tryLowAccuracyLocation. -/
def lowAccuracyOptions : PositionOptions :=
  { enableHighAccuracy := false, timeout := 15000, maximumAge := 300000 }

/-- Final outcome of the acquisition pipeline: a stored location or a
surfaced error code. -/
inductive LocationOutcome where
  | located (pos : GeoPosition)
  | failed (code : GeoErrorCode)
deriving DecidableEq

/-- Embedding of handleLocationError.  The switch sets shouldTryFallback
only for POSITION_UNAVAILABLE and TIMEOUT and only when the caller passed
tryLowAccuracy; the fallback is the body of tryLowAccuracyLocation, whose
error callback calls handleLocationError again with tryLowAccuracy false.
Returns the outcome and the list of option records of the attempts made
below this point. -/
def handleLocationError (provider : PositionOptions → GeoResult) :
    GeoErrorCode → Bool → LocationOutcome × List PositionOptions
  | code, false =>
    -- With tryLowAccuracy false every branch of the switch leaves
    -- shouldTryFallback false, so the error is surfaced with no attempt.
    (.failed code, [])
  | code, true =>
    let shouldTryFallback :=
      match code with
      | .permissionDenied => false
      | .positionUnavailable => true
      | .timeout => true
    if shouldTryFallback then
      match provider lowAccuracyOptions with
      | .ok p => (.located p, [lowAccuracyOptions])
      | .err e2 =>
        let r := handleLocationError provider e2 false
        (r.1, lowAccuracyOptions :: r.2)
    else (.failed code, [])
termination_by _ tryLowAccuracy => (cond tryLowAccuracy 1 0 : ℕ)
decreasing_by decide

/-- Embedding of ensureLocationAccess: one high accuracy attempt, errors
delegated to handleLocationError with tryLowAccuracy true.  Returns the
outcome and the option records of every attempt, in order. -/
def ensureLocationAccess (provider : PositionOptions → GeoResult) :
    LocationOutcome × List PositionOptions :=
  match provider highAccuracyOptions with
  | .ok p => (.located p, [highAccuracyOptions])
  | .err e =>
    let r := handleLocationError provider e true
    (r.1, highAccuracyOptions :: r.2)

/-! ### Haversine distance (nearby-supermarkets, calculateDistance) -/

/-- JavaScript Math.atan2 on the reals. -/
noncomputable def atan2 (y x : ℝ) : ℝ :=
  if 0 < x then Real.arctan (y / x)
  else if x < 0 then
    (if 0 ≤ y then Real.arctan (y / x) + Real.pi
     else Real.arctan (y / x) - Real.pi)
  else
    (if 0 < y then Real.pi / 2
     else if y < 0 then -(Real.pi / 2)
     else 0)

/-- Embedding of calculateDistance: the Haversine formula with Earth
radius 6371 km, degree inputs converted to radians. -/
noncomputable def calculateDistance (lat1 lon1 lat2 lon2 : ℝ) : ℝ :=
  let R : ℝ := 6371
  let dLat := (lat2 - lat1) * Real.pi / 180
  let dLon := (lon2 - lon1) * Real.pi / 180
  let a :=
    Real.sin (dLat / 2) * Real.sin (dLat / 2) +
      Real.cos (lat1 * Real.pi / 180) * Real.cos (lat2 * Real.pi / 180) *
        (Real.sin (dLon / 2) * Real.sin (dLon / 2))
  let c := 2 * atan2 (Real.sqrt a) (Real.sqrt (1 - a))
  R * c



/-! ### Helper lemmas -/

/-- The sequential deduction chain of getNutritionScore equals the
independent sum the spec describes. -/
theorem getNutritionScore_score_eq_spec (n : NutritionFacts) :
    (getNutritionScore (some n)).score = specScoreValue n := by
  simp only [getNutritionScore, specScoreValue]
  split_ifs <;> omega

/-- The first component of the grade and color ladder is the spec grade
ladder. -/
theorem gradeColor_fst (s : ℤ) :
    (if s ≥ 85 then (("A", "text-fresh-green") : String × String)
     else if s ≥ 70 then ("B", "text-citrus-yellow")
     else if s ≥ 55 then ("C", "text-citrus-orange")
     else ("D", "text-berry-red")).1 = specGrade s := by
  simp only [specGrade]
  split_ifs <;> rfl

/-- The grade of getNutritionScore is the spec grade ladder applied to
the clamped score. -/
theorem getNutritionScore_grade_eq_spec (n : NutritionFacts) :
    (getNutritionScore (some n)).grade =
      specGrade (getNutritionScore (some n)).score := by
  exact gradeColor_fst _


/-! ### Claim theorems: nutrition -/

/-- C2: for every non-null record the score is the spec sum (start at
100, deduct 20 for calories over 400, 15 for sugar over 20, 15 for sodium
over 1.5, 10 for saturated fat over 10, add 5 for protein over 10 and 5
for fiber over 5, clamped to the interval from 0 to 100) and the grade is
the ladder 85 A, 70 B, 55 C, else D applied to that score; the pinned
fixture scores 65 with grade C. -/
theorem claim_c2_nutrition_score :
    (∀ n : NutritionFacts,
      (getNutritionScore (some n)).score = specScoreValue n ∧
      (getNutritionScore (some n)).grade =
        specGrade (getNutritionScore (some n)).score) ∧
    (getNutritionScore (some fixtureFacts)).score = 65 ∧
    (getNutritionScore (some fixtureFacts)).grade = "C" := by
  refine ⟨fun n => ⟨getNutritionScore_score_eq_spec n,
    getNutritionScore_grade_eq_spec n⟩, ?_, ?_⟩
  · rw [getNutritionScore_score_eq_spec]
    norm_num [specScoreValue, fixtureFacts]
  · rw [getNutritionScore_grade_eq_spec, getNutritionScore_score_eq_spec]
    norm_num [specScoreValue, fixtureFacts, specGrade]

/-- C8: a null nutrition record scores 0 with the sentinel grade N/A, and
yields empty positive and warning insight lists. -/
theorem claim_c8_null_input :
    getNutritionScore none = ⟨0, "N/A", "gray"⟩ ∧
    getHealthInsights none = ⟨[], []⟩ :=
  ⟨rfl, rfl⟩

/-- C10: every non-null record scores between 40 and 100 (the deductions
total 60, so the lower clamp is out of reach), and the grade is D exactly
when the score is below 55. -/
theorem claim_c10_score_range (n : NutritionFacts) :
    40 ≤ (getNutritionScore (some n)).score ∧
    (getNutritionScore (some n)).score ≤ 100 ∧
    ((getNutritionScore (some n)).grade = "D" ↔
      (getNutritionScore (some n)).score < 55) := by
  rw [getNutritionScore_grade_eq_spec, getNutritionScore_score_eq_spec]
  have h40 : 40 ≤ specScoreValue n ∧ specScoreValue n ≤ 100 := by
    simp only [specScoreValue]
    split_ifs <;> omega
  refine ⟨h40.1, h40.2, ?_⟩
  simp only [specGrade]
  split_ifs with h1 h2 h3 <;> simp <;> omega

/-! ### Helper lemmas: ranking comparators -/

/-- The distance comparator of the nearby sort is transitive. -/
theorem distLE_trans (a b c : RankedSupermarket)
    (h1 : decide (a.distance ≤ b.distance) = true)
    (h2 : decide (b.distance ≤ c.distance) = true) :
    decide (a.distance ≤ c.distance) = true := by
  simp only [decide_eq_true_eq] at *
  exact le_trans h1 h2

/-- The distance comparator of the nearby sort is total. -/
theorem distLE_total (a b : RankedSupermarket) :
    (decide (a.distance ≤ b.distance) || decide (b.distance ≤ a.distance)) = true := by
  simp only [Bool.or_eq_true, decide_eq_true_eq]
  exact le_total _ _

/-- The price tier comparator of the cheapest-nearby sort is transitive. -/
theorem tierLE_trans (a b c : RankedSupermarket)
    (h1 : decide (getStorePriceRanking a.store.type ≤ getStorePriceRanking b.store.type) = true)
    (h2 : decide (getStorePriceRanking b.store.type ≤ getStorePriceRanking c.store.type) = true) :
    decide (getStorePriceRanking a.store.type ≤ getStorePriceRanking c.store.type) = true := by
  simp only [decide_eq_true_eq] at *
  exact le_trans h1 h2

/-- The price tier comparator of the cheapest-nearby sort is total. -/
theorem tierLE_total (a b : RankedSupermarket) :
    (decide (getStorePriceRanking a.store.type ≤ getStorePriceRanking b.store.type) ||
      decide (getStorePriceRanking b.store.type ≤ getStorePriceRanking a.store.type)) = true := by
  simp only [Bool.or_eq_true, decide_eq_true_eq]
  exact le_total _ _

/-! ### Claim theorems: ranking -/

/-- C3: the nearby ranking returns exactly the mapped candidates whose
distance field is within the radius (in particular never one beyond it),
sorted ascending by distance, and candidates with equal distances keep
their relative order from the filtered input (stable sort). -/
theorem claim_c3_rank (supermarkets : List Supermarket)
    (dist : Supermarket → ℚ) (radius : ℚ) :
    (∀ r ∈ nearbySupermarkets supermarkets dist radius, r.distance ≤ radius) ∧
    List.Perm (nearbySupermarkets supermarkets dist radius)
      ((supermarkets.map fun s => RankedSupermarket.mk s (roundTo1dp (dist s))).filter
        fun r => decide (r.distance ≤ radius)) ∧
    List.Pairwise (fun a b : RankedSupermarket => a.distance ≤ b.distance)
      (nearbySupermarkets supermarkets dist radius) ∧
    (∀ a b : RankedSupermarket, a.distance = b.distance →
      List.Sublist [a, b]
        ((supermarkets.map fun s => RankedSupermarket.mk s (roundTo1dp (dist s))).filter
          fun r => decide (r.distance ≤ radius)) →
      List.Sublist [a, b] (nearbySupermarkets supermarkets dist radius)) := by
  refine ⟨?_, ?_, ?_, ?_⟩
  · intro r hr
    rw [nearbySupermarkets, List.mem_mergeSort] at hr
    have := List.of_mem_filter hr
    simpa using this
  · exact List.mergeSort_perm _ _
  · have h := List.sorted_mergeSort distLE_trans distLE_total
      ((supermarkets.map fun s => RankedSupermarket.mk s (roundTo1dp (dist s))).filter
        fun r => decide (r.distance ≤ radius))
    rw [nearbySupermarkets]
    exact h.imp (by simp)
  · intro a b hab hsub
    rw [nearbySupermarkets]
    exact List.pair_sublist_mergeSort distLE_trans distLE_total
      (by simp [hab]) hsub

/-- C3 witness: two stores at the same rounded distance 0.2 stay in input
order in the ranked output. -/
theorem claim_c3_rank_witness :
    List.Sublist
      [RankedSupermarket.mk ⟨1, "a", "FairPrice"⟩ (roundTo1dp 0.2),
       RankedSupermarket.mk ⟨2, "b", "Giant"⟩ (roundTo1dp 0.2)]
      (nearbySupermarkets [⟨1, "a", "FairPrice"⟩, ⟨2, "b", "Giant"⟩]
        (fun _ => 0.2) 1) := by
  have hd : roundTo1dp 0.2 ≤ 1 := by norm_num [roundTo1dp, round_eq]
  exact (claim_c3_rank [⟨1, "a", "FairPrice"⟩, ⟨2, "b", "Giant"⟩]
    (fun _ => 0.2) 1).2.2.2
    (RankedSupermarket.mk ⟨1, "a", "FairPrice"⟩ (roundTo1dp 0.2))
    (RankedSupermarket.mk ⟨2, "b", "Giant"⟩ (roundTo1dp 0.2))
    rfl (by simp [hd])

/-- C4 counterexample: two stores of the same price tier whose distances
are out of order stay in input order: the cheapest-nearby sort compares
only the price tier, it never reads the distance, so the claimed
equal-tier tie-break by ascending distance does not hold. -/
theorem claim_c4_counterexample :
    sortByPriceRanking
      [RankedSupermarket.mk ⟨1, "A", "FairPrice"⟩ 2,
       RankedSupermarket.mk ⟨2, "B", "FairPrice"⟩ 1] =
      [RankedSupermarket.mk ⟨1, "A", "FairPrice"⟩ 2,
       RankedSupermarket.mk ⟨2, "B", "FairPrice"⟩ 1] ∧
    ¬ List.Pairwise
        (fun a b : RankedSupermarket =>
          getStorePriceRanking a.store.type = getStorePriceRanking b.store.type →
            a.distance ≤ b.distance)
        (sortByPriceRanking
          [RankedSupermarket.mk ⟨1, "A", "FairPrice"⟩ 2,
           RankedSupermarket.mk ⟨2, "B", "FairPrice"⟩ 1]) := by
  have heq : sortByPriceRanking
      [RankedSupermarket.mk ⟨1, "A", "FairPrice"⟩ 2,
       RankedSupermarket.mk ⟨2, "B", "FairPrice"⟩ 1] =
      [RankedSupermarket.mk ⟨1, "A", "FairPrice"⟩ 2,
       RankedSupermarket.mk ⟨2, "B", "FairPrice"⟩ 1] := by
    apply List.mergeSort_of_sorted
    simp [getStorePriceRanking]
  refine ⟨heq, ?_⟩
  rw [heq]
  intro hpair
  have h := List.rel_of_pairwise_cons hpair (List.mem_singleton.mpr rfl) rfl
  norm_num at h

/-- C4 as amended: the cheapest-nearby sort orders stores by ascending
price tier from the fixed table (Sheng Siong 1, Giant 2, FairPrice 3,
Cold Storage 4, FairPrice Finest 5, any unknown type tier 3), a lower
tier store always precedes a higher tier one whatever the distances, and
stores whose tiers compare at most equal keep their relative input order;
the sort itself never compares distances. -/
theorem claim_c4_price_ranking (stores : List RankedSupermarket) :
    List.Pairwise
      (fun a b : RankedSupermarket =>
        getStorePriceRanking a.store.type ≤ getStorePriceRanking b.store.type)
      (sortByPriceRanking stores) ∧
    List.Perm (sortByPriceRanking stores) stores ∧
    (∀ a b : RankedSupermarket,
      getStorePriceRanking a.store.type ≤ getStorePriceRanking b.store.type →
      List.Sublist [a, b] stores →
      List.Sublist [a, b] (sortByPriceRanking stores)) ∧
    getStorePriceRanking "Sheng Siong" = 1 ∧
    getStorePriceRanking "Giant" = 2 ∧
    getStorePriceRanking "FairPrice" = 3 ∧
    getStorePriceRanking "Cold Storage" = 4 ∧
    getStorePriceRanking "FairPrice Finest" = 5 ∧
    (∀ t : String, t ≠ "Sheng Siong" → t ≠ "Giant" → t ≠ "FairPrice" →
      t ≠ "Cold Storage" → t ≠ "FairPrice Finest" → getStorePriceRanking t = 3) := by
  refine ⟨?_, List.mergeSort_perm _ _, ?_, by decide, by decide, by decide,
    by decide, by decide, ?_⟩
  · have h := List.sorted_mergeSort tierLE_trans tierLE_total stores
    rw [sortByPriceRanking]
    exact h.imp (by simp)
  · intro a b hab hsub
    rw [sortByPriceRanking]
    exact List.pair_sublist_mergeSort tierLE_trans tierLE_total (by simp [hab]) hsub
  · intro t h1 h2 h3 h4 h5
    simp only [getStorePriceRanking]
    split_ifs <;> simp_all

/-- C4 witness: two equal-tier stores, fed in with the farther one first,
keep their input order in the price-ranked output. -/
theorem claim_c4_price_ranking_witness :
    List.Sublist
      [RankedSupermarket.mk ⟨1, "A", "FairPrice"⟩ 2,
       RankedSupermarket.mk ⟨2, "B", "FairPrice"⟩ 1]
      (sortByPriceRanking
        [RankedSupermarket.mk ⟨1, "A", "FairPrice"⟩ 2,
         RankedSupermarket.mk ⟨2, "B", "FairPrice"⟩ 1]) := by
  exact (claim_c4_price_ranking _).2.2.1
    (RankedSupermarket.mk ⟨1, "A", "FairPrice"⟩ 2)
    (RankedSupermarket.mk ⟨2, "B", "FairPrice"⟩ 1)
    (by decide) (List.Sublist.refl _)

/-- The rounded distance is at most zero exactly when the raw distance is
below one twentieth, i.e. 0.05 km. -/
theorem roundTo1dp_nonpos_iff (x : ℚ) : roundTo1dp x ≤ 0 ↔ x < 1/20 := by
  rw [roundTo1dp, round_eq,
    div_le_iff₀ (show (0:ℚ) < 10 by norm_num), zero_mul, Int.cast_nonpos]
  constructor
  · intro h
    have h2 := Int.lt_floor_add_one (x * 10 + 1/2)
    have h3 : ((⌊x * 10 + 1/2⌋ : ℤ) : ℚ) ≤ 0 := by exact_mod_cast h
    linarith
  · intro h
    have h2 : x * 10 + 1/2 < ((1 : ℤ) : ℚ) := by push_cast; linarith
    have := Int.floor_lt.mpr h2
    omega

/-- C7 counterexample: with radius 0, a store at true distance 1/25 km
(which is not 0) is still returned, because the inclusion comparison is
made on the distance rounded to one decimal place, not on the unrounded
value. -/
theorem claim_c7_counterexample :
    nearbySupermarkets [⟨1, "S", "FairPrice"⟩] (fun _ => 1/25) 0 =
      [RankedSupermarket.mk ⟨1, "S", "FairPrice"⟩ 0] ∧
    ¬ (∀ r ∈ nearbySupermarkets [⟨1, "S", "FairPrice"⟩] (fun _ => 1/25) 0,
        (fun _ : Supermarket => (1/25 : ℚ)) r.store = 0) := by
  have h0 : roundTo1dp (1/25) = 0 := by
    norm_num [roundTo1dp, round_eq]
  have heq : nearbySupermarkets [⟨1, "S", "FairPrice"⟩] (fun _ => 1/25) 0 =
      [RankedSupermarket.mk ⟨1, "S", "FairPrice"⟩ 0] := by
    simp only [nearbySupermarkets, List.map_cons, List.map_nil, h0]
    simp
  refine ⟨heq, fun h => ?_⟩
  have := h (RankedSupermarket.mk ⟨1, "S", "FairPrice"⟩ 0) (by rw [heq]; simp)
  norm_num at this

/-- C7 as amended: the radius comparison is made on the rounded distance,
so the ranking called with radius 0 returns exactly the candidates whose
true distance rounds to 0 at one decimal place, i.e. lies below 0.05 km
(for the nonnegative distances the Haversine produces). -/
theorem claim_c7_radius_zero (supermarkets : List Supermarket)
    (dist : Supermarket → ℚ) (s : Supermarket) :
    (∃ r ∈ nearbySupermarkets supermarkets dist 0, r.store = s) ↔
      s ∈ supermarkets ∧ dist s < 1/20 := by
  simp only [nearbySupermarkets, List.mem_mergeSort, List.mem_filter,
    List.mem_map, decide_eq_true_eq]
  constructor
  · rintro ⟨r, ⟨⟨a, ha, rfl⟩, hle⟩, hstore⟩
    rcases hstore
    exact ⟨ha, (roundTo1dp_nonpos_iff _).mp hle⟩
  · rintro ⟨hs, hlt⟩
    exact ⟨RankedSupermarket.mk s (roundTo1dp (dist s)),
      ⟨⟨s, hs, rfl⟩, (roundTo1dp_nonpos_iff _).mpr hlt⟩, rfl⟩

/-! ### Helper lemmas: proximity steps -/

/-- A far fix always leaves the machine in the FAR state with no toast,
from either state. -/
theorem checkNearSupermarket_far (o : LookupOutcome) (h : isFarFix o = true)
    (b : Bool) : checkNearSupermarket b o = (false, false) := by
  cases o with
  | failure => simp [isFarFix] at h
  | exception => simp [isFarFix] at h
  | response success distances =>
    cases success with
    | false => simp [isFarFix] at h
    | true =>
      simp only [isFarFix, Bool.not_eq_true'] at h
      cases b <;> cases hE : distances.isEmpty <;>
        simp [checkNearSupermarket, h, hE]

/-- A close fix in state FAR enters NEAR and fires the toast. -/
theorem checkNearSupermarket_close_far (o : LookupOutcome)
    (h : isCloseFix o = true) : checkNearSupermarket false o = (true, true) := by
  cases o with
  | failure => simp [isCloseFix] at h
  | exception => simp [isCloseFix] at h
  | response success distances =>
    cases success with
    | false => simp [isCloseFix] at h
    | true =>
      simp only [isCloseFix] at h
      have hne : distances.isEmpty = false := by
        rcases List.any_eq_true.mp h with ⟨d, hd, _⟩
        cases distances <;> simp_all
      simp [checkNearSupermarket, h, hne]

/-- A close fix in state NEAR stays NEAR and fires nothing. -/
theorem checkNearSupermarket_close_near (o : LookupOutcome)
    (h : isCloseFix o = true) : checkNearSupermarket true o = (true, false) := by
  cases o with
  | failure => simp [isCloseFix] at h
  | exception => simp [isCloseFix] at h
  | response success distances =>
    cases success with
    | false => simp [isCloseFix] at h
    | true =>
      simp only [isCloseFix] at h
      have hne : distances.isEmpty = false := by
        rcases List.any_eq_true.mp h with ⟨d, hd, _⟩
        cases distances <;> simp_all
      simp [checkNearSupermarket, h, hne]

/-! ### Claim theorems: proximity and location -/

/-- C1: from the initial FAR state, the fix sequence far, far, close,
close, far fires the entered-near-supermarket toast exactly once, at the
third fix on the FAR to NEAR edge; the fourth fix fires nothing and the
fifth exits to FAR silently. -/
theorem claim_c1_hysteresis (o1 o2 o3 o4 o5 : LookupOutcome)
    (h1 : isFarFix o1 = true) (h2 : isFarFix o2 = true)
    (h3 : isCloseFix o3 = true) (h4 : isCloseFix o4 = true)
    (h5 : isFarFix o5 = true) :
    runProximity false [o1, o2, o3, o4, o5] =
      (false, [false, false, true, false, false]) := by
  simp [runProximity,
    checkNearSupermarket_far o1 h1, checkNearSupermarket_far o2 h2,
    checkNearSupermarket_close_far o3 h3, checkNearSupermarket_close_near o4 h4,
    checkNearSupermarket_far o5 h5]

/-- C1 witness: a concrete run with one store at 0.8 km on the far fixes
and one at 0.3 km on the close fixes. -/
theorem claim_c1_hysteresis_witness :
    runProximity false
      [LookupOutcome.response true [0.8], LookupOutcome.response true [0.8],
       LookupOutcome.response true [0.3], LookupOutcome.response true [0.3],
       LookupOutcome.response true [0.8]] =
      (false, [false, false, true, false, false]) := by
  have hfar : isFarFix (LookupOutcome.response true [0.8]) = true := by
    norm_num [isFarFix]
  have hclose : isCloseFix (LookupOutcome.response true [0.3]) = true := by
    norm_num [isCloseFix]
  exact claim_c1_hysteresis _ _ _ _ _ hfar hfar hclose hclose hfar

/-- C6: when the store lookup collaborator reports an error or throws,
the proximity check leaves the state exactly as it was, fires no toast,
and (being a total function into a pair) propagates no exception. -/
theorem claim_c6_lookup_failure (near : Bool) :
    checkNearSupermarket near LookupOutcome.failure = (near, false) ∧
    checkNearSupermarket near LookupOutcome.exception = (near, false) :=
  ⟨rfl, rfl⟩

/-- C5: the location policy first attempts a high accuracy fix with
timeout 8000 ms and maximum age 60000 ms; on POSITION_UNAVAILABLE or
TIMEOUT it retries exactly once with the low accuracy options (timeout
15000 ms, maximum age 300000 ms) and stops there whatever that attempt
returns; on PERMISSION_DENIED it surfaces the denial with no retry. -/
theorem claim_c5_location_policy (provider : PositionOptions → GeoResult) :
    highAccuracyOptions = ⟨true, 8000, 60000⟩ ∧
    lowAccuracyOptions = ⟨false, 15000, 300000⟩ ∧
    (∀ p, provider highAccuracyOptions = GeoResult.ok p →
      ensureLocationAccess provider =
        (LocationOutcome.located p, [highAccuracyOptions])) ∧
    (provider highAccuracyOptions = GeoResult.err GeoErrorCode.permissionDenied →
      ensureLocationAccess provider =
        (LocationOutcome.failed GeoErrorCode.permissionDenied,
          [highAccuracyOptions])) ∧
    (∀ e, (e = GeoErrorCode.positionUnavailable ∨ e = GeoErrorCode.timeout) →
      provider highAccuracyOptions = GeoResult.err e →
      ∀ p2, provider lowAccuracyOptions = GeoResult.ok p2 →
        ensureLocationAccess provider =
          (LocationOutcome.located p2,
            [highAccuracyOptions, lowAccuracyOptions])) ∧
    (∀ e e2, (e = GeoErrorCode.positionUnavailable ∨ e = GeoErrorCode.timeout) →
      provider highAccuracyOptions = GeoResult.err e →
      provider lowAccuracyOptions = GeoResult.err e2 →
        ensureLocationAccess provider =
          (LocationOutcome.failed e2,
            [highAccuracyOptions, lowAccuracyOptions])) := by
  refine ⟨rfl, rfl, ?_, ?_, ?_, ?_⟩
  · intro p hp
    simp [ensureLocationAccess, hp]
  · intro hp
    simp [ensureLocationAccess, hp, handleLocationError]
  · rintro e (rfl | rfl) hp p2 hp2 <;>
      simp [ensureLocationAccess, hp, handleLocationError, hp2]
  · rintro e e2 (rfl | rfl) hp hp2 <;>
      simp [ensureLocationAccess, hp, handleLocationError, hp2]

/-- C5 witness: a provider that times out in high accuracy mode and then
succeeds in low accuracy mode yields the fix after exactly the two
documented attempts. -/
theorem claim_c5_location_policy_witness :
    ensureLocationAccess
      (fun o => if o.enableHighAccuracy then GeoResult.err GeoErrorCode.timeout
        else GeoResult.ok ⟨1, 2⟩) =
      (LocationOutcome.located ⟨1, 2⟩,
        [highAccuracyOptions, lowAccuracyOptions]) := by
  exact (claim_c5_location_policy _).2.2.2.2.1 GeoErrorCode.timeout
    (Or.inr rfl) rfl ⟨1, 2⟩ rfl

/-! ### Claim theorems: Haversine distance -/

/-- C9: the Haversine distance of a coordinate to itself is 0, and the
distance is symmetric in its two coordinates. -/
theorem claim_c9_distance_identity_symm :
    (∀ lat lon : ℝ, calculateDistance lat lon lat lon = 0) ∧
    (∀ lat1 lon1 lat2 lon2 : ℝ,
      calculateDistance lat1 lon1 lat2 lon2 =
        calculateDistance lat2 lon2 lat1 lon1) := by
  constructor
  · intro lat lon
    simp [calculateDistance, atan2, Real.arctan_zero]
  · intro lat1 lon1 lat2 lon2
    have hsin : ∀ u v : ℝ,
        Real.sin ((u - v) * Real.pi / 180 / 2) *
          Real.sin ((u - v) * Real.pi / 180 / 2) =
        Real.sin ((v - u) * Real.pi / 180 / 2) *
          Real.sin ((v - u) * Real.pi / 180 / 2) := by
      intro u v
      have h : (u - v) * Real.pi / 180 / 2 = -((v - u) * Real.pi / 180 / 2) := by
        ring
      rw [h, Real.sin_neg, neg_mul_neg]
    simp only [calculateDistance]
    rw [hsin lat2 lat1, hsin lon2 lon1,
      mul_comm (Real.cos (lat1 * Real.pi / 180)) (Real.cos (lat2 * Real.pi / 180))]

end NourishPath
